import Mathlib

/-!
Verification of the configuration loader in `config.go` of
baditaflorin/go-config-module.

The Go code is shallowly embedded: environment maps (both the parsed
definitions file and the process environment) become partial maps
`String → Option String`; the outcome of reading the definitions file
(`godotenv.Read`) is abstracted as a `ReadResult`; Go option functions
mutating a `*Config` become pure functions `Config → Config` applied in
sequence; the `(value, error)` returns become `Except String`.
-/

namespace GoConfig

/-- Partial map from variable names to values, used both for the parsed
definitions file mapping and the process environment (`os.LookupEnv`). -/
abbrev EnvMap := String → Option String

/-- Mapping with no entries, as returned by `make(map[string]string)`. -/
def emptyEnv : EnvMap := fun _ => none

/-- The `Config` struct of config.go. -/
structure Config where
  DatabaseURL    : String
  AuthServiceURL : String
  Debug          : Bool
  Port           : String
deriving DecidableEq, Repr

/-- The Go type `Option func(*Config)`: a mutation of the in-progress
configuration, embedded as a pure function. Named `ConfigOption` to avoid
clashing with the core `Option` type. -/
abbrev ConfigOption := Config → Config

/-- WithDatabaseURL from config.go: sets DatabaseURL only when the supplied
value is non-empty. -/
def WithDatabaseURL (url : String) : ConfigOption :=
  fun c => if url ≠ "" then { c with DatabaseURL := url } else c

/-- WithAuthServiceURL from config.go: sets AuthServiceURL only when the
supplied value is non-empty. -/
def WithAuthServiceURL (url : String) : ConfigOption :=
  fun c => if url ≠ "" then { c with AuthServiceURL := url } else c

/-- WithDebug from config.go: sets Debug unconditionally. -/
def WithDebug (debug : Bool) : ConfigOption :=
  fun c => { c with Debug := debug }

/-- WithPort from config.go: sets Port only when the supplied value is
non-empty. -/
def WithPort (port : String) : ConfigOption :=
  fun c => if port ≠ "" then { c with Port := port } else c

/-- getEnvWithFallback from config.go: the file mapping value wins when
present and non-empty, then the process environment value when present and
non-empty, then the fallback. -/
def getEnvWithFallback (envs osEnv : EnvMap) (key fallback : String) : String :=
  match envs key with
  | some value =>
      if value ≠ "" then value
      else
        match osEnv key with
        | some value2 => if value2 ≠ "" then value2 else fallback
        | none => fallback
  | none =>
      match osEnv key with
      | some value2 => if value2 ≠ "" then value2 else fallback
      | none => fallback

/-- strconv.FormatBool. -/
def formatBool (b : Bool) : String := if b then "true" else "false"

/-- strconv.ParseBool: accepts exactly 1, t, T, TRUE, true, True and
0, f, F, FALSE, false, False; anything else is a parse error. -/
def parseBool (s : String) : Option Bool :=
  match s with
  | "1" | "t" | "T" | "TRUE" | "true" | "True" => some true
  | "0" | "f" | "F" | "FALSE" | "false" | "False" => some false
  | _ => none

/-- getBoolEnvWithFallback from config.go: resolve the string with the
string form of the fallback, then parse it; a parse failure yields the
fallback (after logging a warning, which the embedding drops). -/
def getBoolEnvWithFallback (envs osEnv : EnvMap) (key : String) (fallback : Bool) : Bool :=
  let strValue := getEnvWithFallback envs osEnv key (formatBool fallback)
  match parseBool strValue with
  | some boolValue => boolValue
  | none => fallback

/-- Outcome of `godotenv.Read` on the resolved file path: the file is
missing (`os.IsNotExist`), it parses to a mapping, or it fails with some
other read or parse error carrying a message. The path computation itself
(ENV_FILE override or the caller-relative default) does not affect any
claim and is not modelled. -/
inductive ReadResult where
  | notExist
  | readOk (envs : EnvMap)
  | readErr (msg : String)

/-- loadEnv from config.go: a missing file is non-fatal and yields an empty
mapping; any other failure is wrapped and returned as an error. -/
def loadEnv (r : ReadResult) : Except String EnvMap :=
  match r with
  | .notExist => .ok emptyEnv
  | .readOk envs => .ok envs
  | .readErr msg => .error ("error reading .env file: " ++ msg)

/-- validate from config.go, returning `some errorMessage` where the Go
method returns a non-nil error. -/
def validate (c : Config) : Option String :=
  if c.DatabaseURL = "" then some "DATABASE_URL is not set"
  else if c.AuthServiceURL = "" then some "AUTH_SERVICE_URL is not set"
  else none

/-- The configuration literal built inside NewConfig before any override
runs: each field resolved by the two-tier lookup with its default. -/
def initialConfig (envs osEnv : EnvMap) : Config :=
  { DatabaseURL := getEnvWithFallback envs osEnv "DATABASE_URL" ""
    AuthServiceURL := getEnvWithFallback envs osEnv "AUTH_SERVICE_URL" "http://localhost:8080"
    Debug := getBoolEnvWithFallback envs osEnv "DEBUG" false
    Port := getEnvWithFallback envs osEnv "PORT" "8092" }

/-- The `for _, opt := range opts { opt(c) }` loop of NewConfig: options
applied left to right. -/
def applyOpts (opts : List ConfigOption) (c : Config) : Config :=
  List.foldl (fun acc opt => opt acc) c opts

/-- NewConfig from config.go, parameterised by the file read outcome and
the process environment. -/
def NewConfig (file : ReadResult) (osEnv : EnvMap) (opts : List ConfigOption) :
    Except String Config :=
  match loadEnv file with
  | .error e => .error ("failed to load environment: " ++ e)
  | .ok envs =>
      let c := applyOpts opts (initialConfig envs osEnv)
      match validate c with
      | some e => .error e
      | none => .ok c

/-- An option is expressible with the four named override constructors. -/
def IsNamedOption (o : ConfigOption) : Prop :=
  (∃ v, o = WithDatabaseURL v) ∨ (∃ v, o = WithAuthServiceURL v) ∨
  (∃ b, o = WithDebug b) ∨ (∃ v, o = WithPort v)

/-- An option that never changes the Port field. -/
def PreservesPort (o : ConfigOption) : Prop := ∀ c, (o c).Port = c.Port

/-- An option that never changes the DatabaseURL field. -/
def PreservesDatabaseURL (o : ConfigOption) : Prop :=
  ∀ c, (o c).DatabaseURL = c.DatabaseURL

/-- An option that never changes the AuthServiceURL field. -/
def PreservesAuthServiceURL (o : ConfigOption) : Prop :=
  ∀ c, (o c).AuthServiceURL = c.AuthServiceURL

/-- An option that never changes the Debug field. -/
def PreservesDebug (o : ConfigOption) : Prop := ∀ c, (o c).Debug = c.Debug

/-- A raw override function (legal at the Go type `func(*Config)`) that
clears AuthServiceURL; it is not one of the named constructors. -/
def clearAuthServiceURL : ConfigOption := fun c => { c with AuthServiceURL := "" }

/-! ### Concrete environments used by witnesses -/

/-- File mapping setting only PORT to 9000. -/
def filePort9000 : EnvMap := fun k => if k = "PORT" then some "9000" else none

/-- Process environment setting only PORT to 7000. -/
def osPort7000 : EnvMap := fun k => if k = "PORT" then some "7000" else none

/-- File mapping with an empty PORT entry, as written by a line `PORT=`. -/
def filePortEmpty : EnvMap := fun k => if k = "PORT" then some "" else none

/-- File mapping setting only DATABASE_URL. -/
def fileWithDB : EnvMap := fun k => if k = "DATABASE_URL" then some "postgres://db" else none

/-- File mapping with the entry DEBUG=notabool. -/
def fileBadBool : EnvMap := fun k => if k = "DEBUG" then some "notabool" else none

/-! ### Helper lemmas -/

/-- A two-tier lookup with a non-empty fallback never returns the empty
string: every branch returns either a value guarded by a non-emptiness
test or the fallback itself. -/
theorem getEnvWithFallback_ne_empty (envs osEnv : EnvMap) (key fallback : String)
    (hf : fallback ≠ "") : getEnvWithFallback envs osEnv key fallback ≠ "" := by
  unfold getEnvWithFallback
  cases h1 : envs key with
  | some value =>
      by_cases hv : value = ""
      · simp only [hv, ne_eq, not_true_eq_false, if_false]
        cases h2 : osEnv key with
        | some value2 =>
            by_cases hv2 : value2 = "" <;> simp [hv2, hf]
        | none => simpa using hf
      · simp [hv]
  | none =>
      cases h2 : osEnv key with
      | some value2 =>
          by_cases hv2 : value2 = "" <;> simp [hv2, hf]
      | none => simpa using hf

/-- The AuthServiceURL field resolved inside NewConfig is non-empty,
because its default is the non-empty string http://localhost:8080. -/
theorem initialConfig_auth_ne_empty (envs osEnv : EnvMap) :
    (initialConfig envs osEnv).AuthServiceURL ≠ "" :=
  getEnvWithFallback_ne_empty envs osEnv "AUTH_SERVICE_URL" "http://localhost:8080" (by decide)

/-- The Port field resolved inside NewConfig is non-empty, because its
default is the non-empty string 8092. -/
theorem initialConfig_port_ne_empty (envs osEnv : EnvMap) :
    (initialConfig envs osEnv).Port ≠ "" :=
  getEnvWithFallback_ne_empty envs osEnv "PORT" "8092" (by decide)

/-- validate succeeds exactly when both required fields are non-empty. -/
theorem validate_eq_none_iff (c : Config) :
    validate c = none ↔ c.DatabaseURL ≠ "" ∧ c.AuthServiceURL ≠ "" := by
  unfold validate
  by_cases h1 : c.DatabaseURL = "" <;> by_cases h2 : c.AuthServiceURL = "" <;>
    simp [h1, h2]

/-- On a configuration whose AuthServiceURL is non-empty, validate never
produces the AUTH_SERVICE_URL error. -/
theorem validate_ne_auth_error (c : Config) (h : c.AuthServiceURL ≠ "") :
    validate c ≠ some "AUTH_SERVICE_URL is not set" := by
  unfold validate
  by_cases h1 : c.DatabaseURL = "" <;> simp [h1, h]

/-- Each named constructor preserves non-emptiness of AuthServiceURL: the
only one touching the field skips empty values. -/
theorem namedOption_preserves_auth_ne (o : ConfigOption) (ho : IsNamedOption o)
    (c : Config) (hc : c.AuthServiceURL ≠ "") : (o c).AuthServiceURL ≠ "" := by
  rcases ho with ⟨v, rfl⟩ | ⟨v, rfl⟩ | ⟨b, rfl⟩ | ⟨v, rfl⟩
  · by_cases hv : v = "" <;> simp [WithDatabaseURL, hv, hc]
  · by_cases hv : v = "" <;> simp [WithAuthServiceURL, hv, hc]
  · simpa [WithDebug] using hc
  · by_cases hv : v = "" <;> simp [WithPort, hv, hc]

/-- Applying any sequence of named constructors preserves non-emptiness
of AuthServiceURL. -/
theorem applyOpts_preserves_auth_ne (opts : List ConfigOption)
    (h : ∀ o ∈ opts, IsNamedOption o) (c : Config) (hc : c.AuthServiceURL ≠ "") :
    (applyOpts opts c).AuthServiceURL ≠ "" := by
  induction opts generalizing c with
  | nil => simpa [applyOpts] using hc
  | cons o rest ih =>
      have h1 : IsNamedOption o := h o (List.mem_cons_self o rest)
      have h2 : ∀ p ∈ rest, IsNamedOption p := fun p hp => h p (List.mem_cons_of_mem o hp)
      simpa [applyOpts, List.foldl_cons] using
        ih h2 (o c) (namedOption_preserves_auth_ne o h1 c hc)

/-- Applying a sequence of options each of which preserves a given
observation of the configuration preserves that observation. -/
theorem applyOpts_preserves {α : Type} (f : Config → α) (opts : List ConfigOption)
    (h : ∀ o ∈ opts, ∀ c, f (o c) = f c) (c : Config) :
    f (applyOpts opts c) = f c := by
  induction opts generalizing c with
  | nil => simp [applyOpts]
  | cons o rest ih =>
      have h1 := h o (List.mem_cons_self o rest)
      have h2 : ∀ p ∈ rest, ∀ d, f (p d) = f d :=
        fun p hp => h p (List.mem_cons_of_mem o hp)
      calc f (applyOpts (o :: rest) c)
          = f (applyOpts rest (o c)) := by simp [applyOpts, List.foldl_cons]
        _ = f (o c) := ih h2 (o c)
        _ = f c := h1 c

/-- Applying a sequence of Port-preserving options leaves Port unchanged. -/
theorem applyOpts_preserves_port (opts : List ConfigOption)
    (h : ∀ o ∈ opts, PreservesPort o) (c : Config) :
    (applyOpts opts c).Port = c.Port :=
  applyOpts_preserves (fun d => d.Port) opts (fun o ho d => h o ho d) c

/-- Applying a sequence of DatabaseURL-preserving options leaves
DatabaseURL unchanged. -/
theorem applyOpts_preserves_databaseURL (opts : List ConfigOption)
    (h : ∀ o ∈ opts, PreservesDatabaseURL o) (c : Config) :
    (applyOpts opts c).DatabaseURL = c.DatabaseURL :=
  applyOpts_preserves (fun d => d.DatabaseURL) opts (fun o ho d => h o ho d) c

/-- Applying a sequence of AuthServiceURL-preserving options leaves
AuthServiceURL unchanged. -/
theorem applyOpts_preserves_authServiceURL (opts : List ConfigOption)
    (h : ∀ o ∈ opts, PreservesAuthServiceURL o) (c : Config) :
    (applyOpts opts c).AuthServiceURL = c.AuthServiceURL :=
  applyOpts_preserves (fun d => d.AuthServiceURL) opts (fun o ho d => h o ho d) c

/-- Applying a sequence of Debug-preserving options leaves Debug
unchanged. -/
theorem applyOpts_preserves_debug (opts : List ConfigOption)
    (h : ∀ o ∈ opts, PreservesDebug o) (c : Config) :
    (applyOpts opts c).Debug = c.Debug :=
  applyOpts_preserves (fun d => d.Debug) opts (fun o ho d => h o ho d) c

/-- Splitting an application around two marked options: the fold applies
the prefix, the first marked option, the middle, the second marked option,
and the suffix, in that order. -/
theorem applyOpts_split (pre mid post : List ConfigOption) (o1 o2 : ConfigOption)
    (c : Config) :
    applyOpts (pre ++ o1 :: (mid ++ o2 :: post)) c =
      applyOpts post (o2 (applyOpts mid (o1 (applyOpts pre c)))) := by
  simp [applyOpts, List.foldl_append]

/-- The wrapped file-read error message is never the AUTH_SERVICE_URL
validation message: its fixed prefix is already longer. -/
theorem wrapped_error_ne_auth (msg : String) :
    ("failed to load environment: " ++ ("error reading .env file: " ++ msg)) ≠
      "AUTH_SERVICE_URL is not set" := by
  intro h
  have hlen := congrArg String.length h
  rw [String.length_append, String.length_append] at hlen
  have h1 : ("failed to load environment: ").length = 28 := rfl
  have h2 : ("error reading .env file: ").length = 25 := rfl
  have h3 : ("AUTH_SERVICE_URL is not set").length = 27 := rfl
  rw [h1, h2, h3] at hlen
  omega

/-- The two-tier lookup returns the fallback when both sources are absent
or empty at the key. -/
theorem getEnvWithFallback_of_absent (envs osEnv : EnvMap) (key fallback : String)
    (hf : envs key = none ∨ envs key = some "")
    (ho : osEnv key = none ∨ osEnv key = some "") :
    getEnvWithFallback envs osEnv key fallback = fallback := by
  rcases hf with h | h <;> rcases ho with h2 | h2 <;>
    unfold getEnvWithFallback <;> rw [h] <;> simp [h2]

/-- With the file mapping in hand and every supplied option a named
constructor, NewConfig never returns the AUTH_SERVICE_URL error: the field
starts non-empty (its default is non-empty) and no named constructor can
empty it. -/
theorem newConfig_readOk_ne_auth_error (envs osEnv : EnvMap)
    (opts : List ConfigOption) (hnamed : ∀ o ∈ opts, IsNamedOption o) :
    NewConfig (.readOk envs) osEnv opts ≠ .error "AUTH_SERVICE_URL is not set" := by
  intro herr
  have hauth : (applyOpts opts (initialConfig envs osEnv)).AuthServiceURL ≠ "" :=
    applyOpts_preserves_auth_ne opts hnamed (initialConfig envs osEnv)
      (initialConfig_auth_ne_empty envs osEnv)
  have hval := validate_ne_auth_error (applyOpts opts (initialConfig envs osEnv)) hauth
  simp only [NewConfig, loadEnv] at herr
  cases hv : validate (applyOpts opts (initialConfig envs osEnv)) with
  | none => rw [hv] at herr; exact absurd herr (by simp)
  | some e =>
      rw [hv] at herr
      have : e = "AUTH_SERVICE_URL is not set" := by simpa using herr
      exact hval (this ▸ hv)

/-- For any file read outcome and any sequence of named constructor
options, NewConfig never returns the AUTH_SERVICE_URL error. -/
theorem newConfig_ne_auth_error (file : ReadResult) (osEnv : EnvMap)
    (opts : List ConfigOption) (hnamed : ∀ o ∈ opts, IsNamedOption o) :
    NewConfig file osEnv opts ≠ .error "AUTH_SERVICE_URL is not set" := by
  cases file with
  | notExist =>
      have : NewConfig .notExist osEnv opts = NewConfig (.readOk emptyEnv) osEnv opts := rfl
      rw [this]
      exact newConfig_readOk_ne_auth_error emptyEnv osEnv opts hnamed
  | readOk envs => exact newConfig_readOk_ne_auth_error envs osEnv opts hnamed
  | readErr msg =>
      intro herr
      have : ("failed to load environment: " ++ ("error reading .env file: " ++ msg)) =
          "AUTH_SERVICE_URL is not set" := by
        simpa [NewConfig, loadEnv] using herr
      exact wrapped_error_ne_auth msg this

/-! ### Claim theorems -/

/-- C1: getEnvWithFallback returns the file mapping value for the key when
present and non-empty; otherwise the process environment value when present
and non-empty; otherwise the fallback. In particular the file mapping wins
when both hold non-empty values, and an empty file entry is skipped in
favor of the environment and then the fallback. -/
theorem getEnvWithFallback_precedence (envs osEnv : EnvMap) (key fallback : String) :
    (∀ v, envs key = some v → v ≠ "" → getEnvWithFallback envs osEnv key fallback = v) ∧
    ((envs key = none ∨ envs key = some "") →
      ∀ w, osEnv key = some w → w ≠ "" → getEnvWithFallback envs osEnv key fallback = w) ∧
    ((envs key = none ∨ envs key = some "") → (osEnv key = none ∨ osEnv key = some "") →
      getEnvWithFallback envs osEnv key fallback = fallback) := by
  refine ⟨?_, ?_, ?_⟩
  · intro v hv hne
    unfold getEnvWithFallback
    rw [hv]
    simp [hne]
  · rintro (h | h) w hw hne <;> unfold getEnvWithFallback <;> rw [h] <;> simp [hw, hne]
  · rintro (h | h) (h2 | h2) <;> unfold getEnvWithFallback <;> rw [h] <;> simp [h2]

/-- C1 witness: with file PORT=9000 and environment PORT=7000 the file
wins; with an empty file entry the environment wins; with both empty or
absent the fallback 8092 is returned. -/
theorem getEnvWithFallback_precedence_witness :
    getEnvWithFallback filePort9000 osPort7000 "PORT" "8092" = "9000" ∧
    getEnvWithFallback filePortEmpty osPort7000 "PORT" "8092" = "7000" ∧
    getEnvWithFallback filePortEmpty emptyEnv "PORT" "8092" = "8092" :=
  ⟨(getEnvWithFallback_precedence filePort9000 osPort7000 "PORT" "8092").1
      "9000" rfl (by decide),
   (getEnvWithFallback_precedence filePortEmpty osPort7000 "PORT" "8092").2.1
      (Or.inr rfl) "7000" rfl (by decide),
   (getEnvWithFallback_precedence filePortEmpty emptyEnv "PORT" "8092").2.2
      (Or.inr rfl) (Or.inl rfl)⟩

/-- C6: each named constructor touches exactly its own field: WithDebug
sets Debug unconditionally, while each string constructor sets its field
only when the supplied value is non-empty; all other fields are unchanged
in every case. -/
theorem named_overrides_set_one_field (c : Config) (v : String) (b : Bool) :
    (WithDebug b c).Debug = b ∧
    (WithDebug b c).DatabaseURL = c.DatabaseURL ∧
    (WithDebug b c).AuthServiceURL = c.AuthServiceURL ∧
    (WithDebug b c).Port = c.Port ∧
    (WithDatabaseURL v c).DatabaseURL = (if v = "" then c.DatabaseURL else v) ∧
    (WithDatabaseURL v c).AuthServiceURL = c.AuthServiceURL ∧
    (WithDatabaseURL v c).Debug = c.Debug ∧
    (WithDatabaseURL v c).Port = c.Port ∧
    (WithAuthServiceURL v c).AuthServiceURL = (if v = "" then c.AuthServiceURL else v) ∧
    (WithAuthServiceURL v c).DatabaseURL = c.DatabaseURL ∧
    (WithAuthServiceURL v c).Debug = c.Debug ∧
    (WithAuthServiceURL v c).Port = c.Port ∧
    (WithPort v c).Port = (if v = "" then c.Port else v) ∧
    (WithPort v c).DatabaseURL = c.DatabaseURL ∧
    (WithPort v c).AuthServiceURL = c.AuthServiceURL ∧
    (WithPort v c).Debug = c.Debug := by
  by_cases hv : v = "" <;>
    simp [WithDebug, WithDatabaseURL, WithAuthServiceURL, WithPort, hv]

/-- C7: getBoolEnvWithFallback resolves a string using the string form of
the boolean fallback as the fallback string and parses it; whenever the
resolved string fails to parse as a boolean, the fallback value is
returned instead of an error. -/
theorem getBoolEnvWithFallback_spec (envs osEnv : EnvMap) (key : String) (fallback : Bool) :
    getBoolEnvWithFallback envs osEnv key fallback =
      (parseBool (getEnvWithFallback envs osEnv key (formatBool fallback))).getD fallback ∧
    (parseBool (getEnvWithFallback envs osEnv key (formatBool fallback)) = none →
      getBoolEnvWithFallback envs osEnv key fallback = fallback) := by
  unfold getBoolEnvWithFallback
  cases h : parseBool (getEnvWithFallback envs osEnv key (formatBool fallback)) <;> simp [h]

/-- C7 witness: with the file entry DEBUG=notabool the resolved string
fails to parse and the fallback false is returned. -/
theorem getBoolEnvWithFallback_spec_witness :
    getBoolEnvWithFallback fileBadBool emptyEnv "DEBUG" false = false :=
  (getBoolEnvWithFallback_spec fileBadBool emptyEnv "DEBUG" false).2 rfl

/-- C8: a missing definitions file is non-fatal: loadEnv yields the empty
mapping and NewConfig behaves exactly as with an empty file mapping,
resolving from the process environment and defaults only; every other read
failure is fatal: loadEnv wraps it and NewConfig returns the wrapped error
without constructing a configuration. -/
theorem loadEnv_error_policy :
    loadEnv .notExist = .ok emptyEnv ∧
    (∀ osEnv opts, NewConfig .notExist osEnv opts = NewConfig (.readOk emptyEnv) osEnv opts) ∧
    (∀ msg, loadEnv (.readErr msg) = .error ("error reading .env file: " ++ msg)) ∧
    (∀ msg osEnv opts, NewConfig (.readErr msg) osEnv opts =
      .error ("failed to load environment: " ++ ("error reading .env file: " ++ msg))) :=
  ⟨rfl, fun _ _ => rfl, fun _ => rfl, fun _ _ _ => rfl⟩

/-- C9: each string override constructor applied to the empty string is the
identity on the whole configuration. -/
theorem empty_string_overrides_are_identity (c : Config) :
    WithDatabaseURL "" c = c ∧ WithAuthServiceURL "" c = c ∧ WithPort "" c = c :=
  ⟨rfl, rfl, rfl⟩

/-- C2: when DATABASE_URL resolves to empty from both the file mapping and
the process environment, NewConfig with no override returns the error
DATABASE_URL is not set, while the same call with the override
WithDatabaseURL postgres://x succeeds. -/
theorem newConfig_requires_database_url (envs osEnv : EnvMap)
    (hf : envs "DATABASE_URL" = none ∨ envs "DATABASE_URL" = some "")
    (ho : osEnv "DATABASE_URL" = none ∨ osEnv "DATABASE_URL" = some "") :
    NewConfig (.readOk envs) osEnv [] = .error "DATABASE_URL is not set" ∧
    ∃ c, NewConfig (.readOk envs) osEnv [WithDatabaseURL "postgres://x"] = .ok c := by
  have hdb : (initialConfig envs osEnv).DatabaseURL = "" :=
    getEnvWithFallback_of_absent envs osEnv "DATABASE_URL" "" hf ho
  constructor
  · simp [NewConfig, loadEnv, applyOpts, validate, hdb]
  · have hdb2 : (applyOpts [WithDatabaseURL "postgres://x"] (initialConfig envs osEnv)) =
        { initialConfig envs osEnv with DatabaseURL := "postgres://x" } := by
      simp [applyOpts, WithDatabaseURL]
    have hval : validate (applyOpts [WithDatabaseURL "postgres://x"]
        (initialConfig envs osEnv)) = none := by
      rw [hdb2, validate_eq_none_iff]
      exact ⟨by simp, initialConfig_auth_ne_empty envs osEnv⟩
    refine ⟨applyOpts [WithDatabaseURL "postgres://x"] (initialConfig envs osEnv), ?_⟩
    simp [NewConfig, loadEnv, hval]

/-- C2 witness: with empty file mapping and empty process environment the
call without overrides fails with the DATABASE_URL error and the call with
WithDatabaseURL postgres://x succeeds. -/
theorem newConfig_requires_database_url_witness :
    NewConfig (.readOk emptyEnv) emptyEnv [] = .error "DATABASE_URL is not set" ∧
    ∃ c, NewConfig (.readOk emptyEnv) emptyEnv [WithDatabaseURL "postgres://x"] = .ok c :=
  newConfig_requires_database_url emptyEnv emptyEnv (Or.inl rfl) (Or.inl rfl)

/-- C3: whenever NewConfig returns a configuration rather than an error,
its DatabaseURL and AuthServiceURL fields are non-empty. -/
theorem newConfig_ok_required_nonempty (file : ReadResult) (osEnv : EnvMap)
    (opts : List ConfigOption) (c : Config)
    (h : NewConfig file osEnv opts = .ok c) :
    c.DatabaseURL ≠ "" ∧ c.AuthServiceURL ≠ "" := by
  cases file with
  | readErr msg => exact absurd h (by simp [NewConfig, loadEnv])
  | notExist =>
      simp only [NewConfig, loadEnv] at h
      cases hv : validate (applyOpts opts (initialConfig emptyEnv osEnv)) with
      | some e => rw [hv] at h; exact absurd h (by simp)
      | none =>
          rw [hv] at h
          have hc : applyOpts opts (initialConfig emptyEnv osEnv) = c := by simpa using h
          rw [← hc]
          exact (validate_eq_none_iff _).mp hv
  | readOk envs =>
      simp only [NewConfig, loadEnv] at h
      cases hv : validate (applyOpts opts (initialConfig envs osEnv)) with
      | some e => rw [hv] at h; exact absurd h (by simp)
      | none =>
          rw [hv] at h
          have hc : applyOpts opts (initialConfig envs osEnv) = c := by simpa using h
          rw [← hc]
          exact (validate_eq_none_iff _).mp hv

/-- C3 witness: a successful construction from a file mapping holding only
DATABASE_URL yields non-empty required fields. -/
theorem newConfig_ok_required_nonempty_witness :
    (Config.mk "postgres://db" "http://localhost:8080" false "8092").DatabaseURL ≠ "" ∧
    (Config.mk "postgres://db" "http://localhost:8080" false "8092").AuthServiceURL ≠ "" :=
  newConfig_ok_required_nonempty (.readOk fileWithDB) emptyEnv []
    (Config.mk "postgres://db" "http://localhost:8080" false "8092") rfl

/-- C4: options are applied strictly in the order supplied (applying a
concatenation is applying the first list and then the second), and for
each of the four fields, of two overrides of that field in the sequence
the later one determines the final field value, whatever lies before or
between them, provided every option after it leaves that field alone and,
for the three string constructors, its value is non-empty; the Debug
override sets unconditionally and needs no proviso. -/
theorem override_order_later_wins (c1 c2 c3 c4 d : Config)
    (xs ys preP midP postP preD midD postD preA midA postA preB midB postB :
      List ConfigOption)
    (p1 p2 u1 u2 a1 a2 : String) (b1 b2 : Bool)
    (hpostP : ∀ o ∈ postP, PreservesPort o)
    (hpostD : ∀ o ∈ postD, PreservesDatabaseURL o)
    (hpostA : ∀ o ∈ postA, PreservesAuthServiceURL o)
    (hpostB : ∀ o ∈ postB, PreservesDebug o)
    (hp2 : p2 ≠ "") (hu2 : u2 ≠ "") (ha2 : a2 ≠ "") :
    applyOpts (xs ++ ys) d = applyOpts ys (applyOpts xs d) ∧
    (applyOpts (preP ++ WithPort p1 :: (midP ++ WithPort p2 :: postP)) c1).Port = p2 ∧
    (applyOpts (preD ++ WithDatabaseURL u1 ::
      (midD ++ WithDatabaseURL u2 :: postD)) c2).DatabaseURL = u2 ∧
    (applyOpts (preA ++ WithAuthServiceURL a1 ::
      (midA ++ WithAuthServiceURL a2 :: postA)) c3).AuthServiceURL = a2 ∧
    (applyOpts (preB ++ WithDebug b1 :: (midB ++ WithDebug b2 :: postB)) c4).Debug = b2 := by
  refine ⟨by simp [applyOpts, List.foldl_append], ?_, ?_, ?_, ?_⟩
  · rw [applyOpts_split, applyOpts_preserves_port postP hpostP]
    simp [WithPort, hp2]
  · rw [applyOpts_split, applyOpts_preserves_databaseURL postD hpostD]
    simp [WithDatabaseURL, hu2]
  · rw [applyOpts_split, applyOpts_preserves_authServiceURL postA hpostA]
    simp [WithAuthServiceURL, ha2]
  · rw [applyOpts_split, applyOpts_preserves_debug postB hpostB]
    simp [WithDebug]

/-- C4 witness: concrete later-wins runs for all four fields, with other
constructors before, between, and after the competing pairs: the later
Port override yields 2222, the later DatabaseURL override yields
postgres://b, the later AuthServiceURL override yields http://b, and the
later Debug override yields false. -/
theorem override_order_later_wins_witness :
    applyOpts ([WithDebug true] ++ [WithPort "9000"]) (Config.mk "db" "auth" false "8092") =
      applyOpts [WithPort "9000"]
        (applyOpts [WithDebug true] (Config.mk "db" "auth" false "8092")) ∧
    (applyOpts ([WithDebug true] ++ WithPort "1111" ::
        ([WithDatabaseURL "postgres://x"] ++ WithPort "2222" ::
          [WithAuthServiceURL "http://auth"]))
      (Config.mk "db" "auth" false "8092")).Port = "2222" ∧
    (applyOpts ([] ++ WithDatabaseURL "postgres://a" ::
        ([WithPort "7"] ++ WithDatabaseURL "postgres://b" :: [WithPort "8"]))
      (Config.mk "db" "auth" false "8092")).DatabaseURL = "postgres://b" ∧
    (applyOpts ([WithDebug false] ++ WithAuthServiceURL "http://a" ::
        ([] ++ WithAuthServiceURL "http://b" :: [WithPort "5"]))
      (Config.mk "db" "auth" false "8092")).AuthServiceURL = "http://b" ∧
    (applyOpts ([] ++ WithDebug true :: ([WithPort "4"] ++ WithDebug false ::
        [WithDatabaseURL "postgres://z"]))
      (Config.mk "db" "auth" false "8092")).Debug = false :=
  override_order_later_wins
    (Config.mk "db" "auth" false "8092") (Config.mk "db" "auth" false "8092")
    (Config.mk "db" "auth" false "8092") (Config.mk "db" "auth" false "8092")
    (Config.mk "db" "auth" false "8092")
    [WithDebug true] [WithPort "9000"]
    [WithDebug true] [WithDatabaseURL "postgres://x"] [WithAuthServiceURL "http://auth"]
    [] [WithPort "7"] [WithPort "8"]
    [WithDebug false] [] [WithPort "5"]
    [] [WithPort "4"] [WithDatabaseURL "postgres://z"]
    "1111" "2222" "postgres://a" "postgres://b" "http://a" "http://b" true false
    (by
      intro o ho c
      rw [List.mem_singleton] at ho
      subst ho
      rfl)
    (by
      intro o ho c
      rw [List.mem_singleton] at ho
      subst ho
      rfl)
    (by
      intro o ho c
      rw [List.mem_singleton] at ho
      subst ho
      rfl)
    (by
      intro o ho c
      rw [List.mem_singleton] at ho
      subst ho
      rfl)
    (by decide) (by decide) (by decide)

/-- C5 counterexample: no combination of file read outcome, process
environment, and overrides built from the named constructors makes
NewConfig return the AUTH_SERVICE_URL is not set error: the named string
constructors skip empty values, so none of them can clear the field. -/
theorem named_options_never_reach_auth_error :
    ¬ ∃ (file : ReadResult) (osEnv : EnvMap) (opts : List ConfigOption),
        (∀ o ∈ opts, IsNamedOption o) ∧
        NewConfig file osEnv opts = .error "AUTH_SERVICE_URL is not set" := by
  rintro ⟨file, osEnv, opts, hnamed, herr⟩
  exact newConfig_ne_auth_error file osEnv opts hnamed herr

/-- C5 amended: the AUTH_SERVICE_URL validation failure is unreachable
through the named override constructors, but remains reachable by a raw
override function of the option type that clears the field. -/
theorem auth_error_reachable_by_raw_override :
    NewConfig (.readOk fileWithDB) emptyEnv [clearAuthServiceURL] =
      .error "AUTH_SERVICE_URL is not set" := rfl

/-- C10: the two-tier lookup with a non-empty fallback returns a non-empty
string; consequently, before any override runs, the AuthServiceURL and
Port fields built by NewConfig are non-empty, and with zero overrides
NewConfig never returns the AUTH_SERVICE_URL validation error. -/
theorem resolution_nonempty_of_fallback_nonempty (envs osEnv : EnvMap)
    (key fallback : String) (file : ReadResult) (hf : fallback ≠ "") :
    getEnvWithFallback envs osEnv key fallback ≠ "" ∧
    (initialConfig envs osEnv).AuthServiceURL ≠ "" ∧
    (initialConfig envs osEnv).Port ≠ "" ∧
    NewConfig file osEnv [] ≠ .error "AUTH_SERVICE_URL is not set" :=
  ⟨getEnvWithFallback_ne_empty envs osEnv key fallback hf,
   initialConfig_auth_ne_empty envs osEnv,
   initialConfig_port_ne_empty envs osEnv,
   newConfig_ne_auth_error file osEnv [] (by simp)⟩

/-- C10 witness: with both sources empty, resolving PORT with fallback
8092 is non-empty, the pre-override AuthServiceURL and Port fields are
non-empty, and the zero-override call on a missing file never yields the
AUTH_SERVICE_URL error. -/
theorem resolution_nonempty_of_fallback_nonempty_witness :
    getEnvWithFallback emptyEnv emptyEnv "PORT" "8092" ≠ "" ∧
    (initialConfig emptyEnv emptyEnv).AuthServiceURL ≠ "" ∧
    (initialConfig emptyEnv emptyEnv).Port ≠ "" ∧
    NewConfig .notExist emptyEnv [] ≠ .error "AUTH_SERVICE_URL is not set" :=
  resolution_nonempty_of_fallback_nonempty emptyEnv emptyEnv "PORT" "8092"
    .notExist (by decide)

end GoConfig
